import Mathlib

/-!
Shallow embedding of the continuous-transcription session manager
(`TranscriptionService`, src/unnamed/part_008) and of the audio capture
controller (`useMediaRecorder`, src/hooks/use-media-recorder.ts).

The service is an event-driven object: its public operations
(`start`, `stop`, `abort`, `pause`, `resume`) and its engine event
handlers (`onstart`, `onend`, `onerror`, `onresult`) all mutate one
fields of one instance and schedule/cancel `setTimeout` timers.  We embed it
as explicit state passing: each operation maps a `TSState` to a new
`TSState` together with the list of externally visible `Action`s it
performs (engine start/stop/abort requests and callback invocations).
`setTimeout` is modelled by a list of pending timers carrying fresh ids;
the later invocation of a timer callback by the JS runtime is the
`fireTimer` event.  The outcome of `recognition.start()` (success, "already
started" exception, other exception) is environmental nondeterminism
and is passed in as a `StartOutcome` parameter exactly where the source
wraps the call in try/catch.  Wall-clock fields (`lastResultTime`) and
console logging are elided: no other field or branch depends on them.
-/

namespace Aiclasss

/-- Error codes delivered by the `onerror` event of the recognition
engine (the strings matched in the `onerror` handler of the source). -/
inductive RecError
  | noSpeech
  | audioCapture
  | notAllowed
  | network
  | aborted
  | other
deriving DecidableEq, Repr

/-- Outcome of a `recognition.start()` call: it either returns normally,
throws an error whose message includes "already started", or throws some
other error with message `msg`. -/
inductive StartOutcome
  | ok
  | alreadyStarted
  | failed (msg : String)
deriving DecidableEq, Repr

/-- Which closure a pending `setTimeout` will run: the 100ms/500ms timers
run `attemptRestart`; the 2000ms ceiling timer resets the attempt counter
and conditionally calls `attemptRestart`. -/
inductive TimerKind
  | restartNow
  | cooldown
deriving DecidableEq, Repr

/-- Externally visible effects of an operation: calls into the engine and
invocations of the callbacks of the caller. -/
inductive Action
  | engineStart
  | engineStop
  | engineAbort
  | resultCb (interim final : String)
  | errorCb (msg : String)
deriving DecidableEq, Repr

/-- The fields of a `TranscriptionService` instance, plus the runtime
set of pending timeouts.  `pendingTimers` holds `(id, kind, delayMs)` for
every scheduled, not-yet-fired, not-yet-cleared timeout; `restartTimer`
and `silenceTimer` are the instance fields that hold (at most) the id of
the last timeout assigned to them, as in the source. -/
structure TSState where
  isListening : Bool
  isAborting : Bool
  shouldBeListening : Bool
  isPausedState : Bool
  transcript : String
  interimTranscript : String
  silenceTimer : Option Nat
  restartTimer : Option Nat
  restartAttempts : Nat
  hasRecognition : Bool
  hasResultHandler : Bool
  onResultCallback : Bool
  onErrorCallback : Bool
  pendingTimers : List (Nat × TimerKind × Nat)
  nextTimerId : Nat
deriving DecidableEq, Repr

/-- `maxRestartAttempts` field of the source. -/
def maxRestartAttempts : Nat := 3

/-- State of a freshly constructed `TranscriptionService`; `hasRec` is
whether the platform offers a `SpeechRecognition` constructor. -/
def initTS (hasRec : Bool) : TSState :=
  { isListening := false
    isAborting := false
    shouldBeListening := false
    isPausedState := false
    transcript := ""
    interimTranscript := ""
    silenceTimer := none
    restartTimer := none
    restartAttempts := 0
    hasRecognition := hasRec
    hasResultHandler := false
    onResultCallback := false
    onErrorCallback := false
    pendingTimers := []
    nextTimerId := 0 }

/-- `setTimeout(body, delay)` assigned to `this.restartTimer`: registers a
fresh pending timer and stores its id in the `restartTimer` field (all
three `setTimeout` sites in the source assign to `restartTimer`). -/
def scheduleRestart (k : TimerKind) (delay : Nat) (s : TSState) : TSState :=
  { s with
    pendingTimers := (s.nextTimerId, k, delay) :: s.pendingTimers
    restartTimer := some s.nextTimerId
    nextTimerId := s.nextTimerId + 1 }

/-- `clearSilenceTimer()`: if the field holds a timer id, `clearTimeout`
it (remove it from the pending set if still pending) and null the field. -/
def clearSilenceTimer (s : TSState) : TSState :=
  match s.silenceTimer with
  | none => s
  | some id =>
      { s with
        pendingTimers := s.pendingTimers.filter (fun t => t.1 ≠ id)
        silenceTimer := none }

/-- `clearRestartTimer()`: if the field holds a timer id, `clearTimeout`
it and null the field. -/
def clearRestartTimer (s : TSState) : TSState :=
  match s.restartTimer with
  | none => s
  | some id =>
      { s with
        pendingTimers := s.pendingTimers.filter (fun t => t.1 ≠ id)
        restartTimer := none }

/-- The `onstart` handler installed by `setupRecognition`. -/
def handleOnstart (s : TSState) : TSState :=
  clearRestartTimer (clearSilenceTimer
    { s with isListening := true, isAborting := false, restartAttempts := 0 })

/-- The `onend` handler installed by `setupRecognition`: marks the engine
stopped and, if the session should still be listening and is neither
aborting nor paused, schedules `attemptRestart` after 100ms.  Note that
it assigns a fresh timeout to `restartTimer` without clearing a
previously stored one. -/
def handleOnend (s : TSState) : TSState :=
  let s1 := { s with isListening := false }
  if s1.shouldBeListening && !s1.isAborting && !s1.isPausedState then
    scheduleRestart .restartNow 100 s1
  else s1

/-- The `onerror` handler installed by `setupRecognition`.  The optional
chaining `this.onErrorCallback?.(msg)` invokes the callback only when one
is registered. -/
def handleOnerror (e : RecError) (s : TSState) : TSState × List Action :=
  match e with
  | .noSpeech => (s, [])
  | .audioCapture =>
      ({ s with shouldBeListening := false },
        if s.onErrorCallback then
          [Action.errorCb "Microphone access denied or unavailable"] else [])
  | .notAllowed =>
      ({ s with shouldBeListening := false },
        if s.onErrorCallback then
          [Action.errorCb "Microphone permission denied"] else [])
  | .network => (s, [])
  | .aborted => (s, [])
  | .other => (s, [])

/-- `attemptRestart()`: guarded by intent/abort/listening flags; at the
attempt ceiling it zeroes the counter and schedules a 2000ms cooldown
timer instead of touching the engine; otherwise it increments the counter
and calls `recognition.start()`, handling the two exception shapes the
source distinguishes. -/
def attemptRestart (o : StartOutcome) (s : TSState) : TSState × List Action :=
  if !s.shouldBeListening || s.isAborting || s.isListening then (s, [])
  else if s.restartAttempts ≥ maxRestartAttempts then
    (scheduleRestart .cooldown 2000 { s with restartAttempts := 0 }, [])
  else
    let s1 := { s with restartAttempts := s.restartAttempts + 1 }
    match o with
    | .ok => (s1, [Action.engineStart])
    | .alreadyStarted =>
        ({ s1 with isListening := true, restartAttempts := 0 },
          [Action.engineStart])
    | .failed _ =>
        (scheduleRestart .restartNow 500 s1, [Action.engineStart])

/-- The loop body of the `onresult` handler: walk the delivered result
slice in order, appending each final fragment plus a space to the
transcript accumulator and each non-final fragment to the interim
accumulator. -/
def processResults : List (String × Bool) → String → String → String × String
  | [], tr, itr => (tr, itr)
  | (txt, true) :: rs, tr, itr => processResults rs (tr ++ txt ++ " ") itr
  | (txt, false) :: rs, tr, itr => processResults rs tr (itr ++ txt)

/-- The `onresult` handler assigned inside `start()` (it exists only once
some `start()` has installed it).  `rs` is the slice
`event.results[event.resultIndex ..]` as `(transcript, isFinal)` pairs. -/
def handleOnresult (rs : List (String × Bool)) (s : TSState) :
    TSState × List Action :=
  if !s.hasResultHandler then (s, [])
  else
    let s0 := clearSilenceTimer { s with interimTranscript := "" }
    let p := processResults rs s0.transcript s0.interimTranscript
    let s1 := { s0 with transcript := p.1, interimTranscript := p.2 }
    (s1,
      if s1.onResultCallback then [Action.resultCb p.2 p.1] else [])

/-- `start(onResult, onError?)`.  `hasOnErr` records whether the caller
passed the optional error callback; `o` is the outcome of the
`recognition.start()` call in the final try/catch. -/
def start (hasOnErr : Bool) (o : StartOutcome) (s : TSState) :
    TSState × List Action :=
  if !s.hasRecognition then
    (s, if hasOnErr then
      [Action.errorCb "Speech Recognition API not supported"] else [])
  else if s.shouldBeListening then (s, [])
  else
    let s1 :=
      { s with
        transcript := ""
        interimTranscript := ""
        isAborting := false
        shouldBeListening := true
        onResultCallback := true
        onErrorCallback := hasOnErr
        restartAttempts := 0
        hasResultHandler := true }
    match o with
    | .ok => (s1, [Action.engineStart])
    | .alreadyStarted => (s1, [Action.engineStart])
    | .failed msg =>
        let m := if msg = "" then "Failed to start transcription" else msg
        ({ s1 with shouldBeListening := false },
          Action.engineStart ::
            (if hasOnErr then [Action.errorCb m] else []))

/-- Result of `stop()`: the new state, the performed actions, and the
string the method returns. -/
structure StopOut where
  state : TSState
  actions : List Action
  ret : String
deriving DecidableEq, Repr

/-- `stop()`: clears the intent flag and both timers, asks the engine to
stop if it is currently listening, detaches both callbacks, and returns
the accumulated transcript. -/
def stop (s : TSState) : StopOut :=
  let s1 := clearRestartTimer (clearSilenceTimer
    { s with shouldBeListening := false })
  let acts := if s1.hasRecognition && s1.isListening then
    [Action.engineStop] else []
  let s2 := { s1 with onResultCallback := false, onErrorCallback := false }
  ⟨s2, acts, s2.transcript⟩

/-- `abort()`.  `ok` is whether `recognition.abort()` returns normally
(on an exception the source skips the `isListening = false` assignment;
the `finally` clause resets `isAborting` either way). -/
def abort (ok : Bool) (s : TSState) : TSState × List Action :=
  let s1 := clearRestartTimer (clearSilenceTimer
    { s with shouldBeListening := false })
  if s1.hasRecognition && (s1.isListening || s1.isAborting) then
    let s2 := { s1 with isAborting := true }
    let s3 := if ok then { s2 with isListening := false } else s2
    let s4 := { s3 with
      isAborting := false, onResultCallback := false, onErrorCallback := false }
    (s4, [Action.engineAbort])
  else
    ({ s1 with onResultCallback := false, onErrorCallback := false }, [])

/-- `pause()`: sets the pause flag, clears the silence timer (only), and
asks the engine to stop if it is listening; `isListening` is left for the
`onend` handler. -/
def pause (s : TSState) : TSState × List Action :=
  let s1 := clearSilenceTimer { s with isPausedState := true }
  (s1, if s1.hasRecognition && s1.isListening then [Action.engineStop] else [])

/-- `resume()`: clears the pause flag and calls `recognition.start()` when
the session should be listening and the engine is not; both exception
shapes are swallowed, so the state is the same for every outcome. -/
def resume (s : TSState) : TSState × List Action :=
  let s1 := { s with isPausedState := false }
  if s1.shouldBeListening && !s1.isListening && s1.hasRecognition then
    (s1, [Action.engineStart])
  else (s1, [])

/-- The runtime fires pending timeout `id` (a no-op if it was cleared or
already fired); the closure of the timer runs with the current instance state.
`o` is the outcome of any `recognition.start()` the closure performs. -/
def fireTimer (id : Nat) (o : StartOutcome) (s : TSState) :
    TSState × List Action :=
  match s.pendingTimers.find? (fun t => t.1 = id) with
  | none => (s, [])
  | some (_, k, _) =>
      let s1 := { s with pendingTimers := s.pendingTimers.filter (fun t => t.1 ≠ id) }
      match k with
      | .restartNow => attemptRestart o s1
      | .cooldown =>
          let s2 := { s1 with restartAttempts := 0 }
          if s2.shouldBeListening then attemptRestart o s2 else (s2, [])

/-- A single occurrence on the (single-threaded) event loop: one public
method call, one engine event delivery, or one timer expiry. -/
inductive Event
  | evStart (hasOnErr : Bool) (o : StartOutcome)
  | evStop
  | evAbort (ok : Bool)
  | evPause
  | evResume
  | evOnstart
  | evOnend
  | evOnerror (e : RecError)
  | evOnresult (rs : List (String × Bool))
  | evTimer (id : Nat) (o : StartOutcome)
deriving DecidableEq, Repr

/-- Whether an event is a `start()` call (the only operation that resets
the accumulated transcript). -/
def Event.isStartCall : Event → Bool
  | .evStart _ _ => true
  | _ => false

/-- One step of the event loop. -/
def step (s : TSState) (e : Event) : TSState × List Action :=
  match e with
  | .evStart h o => start h o s
  | .evStop => ((stop s).state, (stop s).actions)
  | .evAbort ok => abort ok s
  | .evPause => pause s
  | .evResume => resume s
  | .evOnstart => (handleOnstart s, [])
  | .evOnend => (handleOnend s, [])
  | .evOnerror e => handleOnerror e s
  | .evOnresult rs => handleOnresult rs s
  | .evTimer id o => fireTimer id o s

/-- Run a list of events, accumulating all performed actions in order. -/
def runTrace (s : TSState) : List Event → TSState × List Action
  | [] => (s, [])
  | e :: es =>
      let p := step s e
      let q := runTrace p.1 es
      (q.1, p.2 ++ q.2)

/-- The `final` arguments handed to the result callback, in invocation
order, within a list of actions. -/
def emittedFinals (as : List Action) : List String :=
  as.filterMap fun a =>
    match a with
    | .resultCb _ f => some f
    | _ => none

/-- Number of pending timeouts whose closure is `attemptRestart`
(the "scheduled restart" of the spec). -/
def pendingRestartCount (s : TSState) : Nat :=
  (s.pendingTimers.filter (fun t => t.2.1 = TimerKind.restartNow)).length

/-- Number of error-callback invocations in an action list. -/
def errorCount (as : List Action) : Nat :=
  (as.filterMap fun a =>
    match a with
    | .errorCb m => some m
    | _ => none).length

/-!
Embedding of the audio capture controller (`useMediaRecorder`,
src/hooks/use-media-recorder.ts).  React `useState` cells and `useRef`
cells become fields of one record; the `ondataavailable`
handler of the `MediaRecorder` is either the one installed by
`startRecording` (which forwards non-empty chunks to the
optional `onDataAvailable` of the caller) or, after `stopRecording` swaps it, the
collector that pushes non-empty chunks into the `chunks` array captured
by the closure inside `stopRecording`.  A chunk is its byte payload, modelled as
a `String`; `event.data.size` is its length, and `new Blob(chunks)`
concatenates payloads in arrival order.
-/

/-- One `BlobEvent.data` payload delivered by the recorder. -/
structure Chunk where
  data : String
deriving DecidableEq, Repr

/-- State of one `useMediaRecorder` hook instance. -/
structure RecState where
  isRecording : Bool
  isPaused : Bool
  duration : Nat
  audioLevel : Nat
  hasRecorder : Bool
  hasStream : Bool
  streamStopped : Bool
  processorStopped : Bool
  durationTimerOn : Bool
  levelTimerOn : Bool
  collectMode : Bool
  collected : List Chunk
deriving DecidableEq, Repr

/-- Externally visible effects of the hook. -/
inductive RecAction
  | forwardChunk (c : Chunk)
  | recorderStart
  | recorderStop
  | recorderPause
  | recorderResume
deriving DecidableEq, Repr

/-- Hook state before any recording. -/
def initRec : RecState :=
  { isRecording := false
    isPaused := false
    duration := 0
    audioLevel := 0
    hasRecorder := false
    hasStream := false
    streamStopped := false
    processorStopped := false
    durationTimerOn := false
    levelTimerOn := false
    collectMode := false
    collected := [] }

/-- The success path of `startRecording()`: stream acquired, processor
initialized, recorder created with the forwarding `ondataavailable`
handler and started with a 1s timeslice, both timers armed. -/
def recStart (s : RecState) : RecState × List RecAction :=
  ({ s with
      hasStream := true
      streamStopped := false
      processorStopped := false
      hasRecorder := true
      collectMode := false
      isRecording := true
      duration := 0
      durationTimerOn := true
      levelTimerOn := true },
    [RecAction.recorderStart])

/-- The recorder delivers a `dataavailable` event carrying `c`.
`hasOnData` is whether the caller supplied `options.onDataAvailable`.
In forwarding mode a non-empty chunk is handed to the caller and NOT
retained; in collect mode it is pushed onto the `chunks` of the closure. -/
def emitChunk (hasOnData : Bool) (c : Chunk) (s : RecState) :
    RecState × List RecAction :=
  if s.collectMode then
    (if c.data.length > 0 then { s with collected := s.collected ++ [c] } else s,
      [])
  else
    (s, if c.data.length > 0 && hasOnData then [RecAction.forwardChunk c] else [])

/-- `pauseRecording()`. -/
def recPause (s : RecState) : RecState × List RecAction :=
  if s.hasRecorder && s.isRecording then
    ({ s with isPaused := true, durationTimerOn := false, levelTimerOn := false },
      [RecAction.recorderPause])
  else (s, [])

/-- `resumeRecording()`. -/
def recResume (s : RecState) : RecState × List RecAction :=
  if s.hasRecorder && s.isPaused then
    ({ s with isPaused := false, durationTimerOn := true, levelTimerOn := true },
      [RecAction.recorderResume])
  else (s, [])

/-- Synchronous part of `stopRecording()`: when a recorder is active it
swaps `ondataavailable` for the collector over a fresh `chunks` array,
calls `recorder.stop()`, stops every stream track, stops the processor,
clears both intervals, and resets the observable state; the promise then
stays pending until `onstop`.  Otherwise the promise is rejected.
Returns the new state, the actions, and whether the stop was accepted. -/
def stopRec (s : RecState) : RecState × List RecAction × Bool :=
  if s.hasRecorder && s.isRecording then
    ({ s with
        collectMode := true
        collected := []
        streamStopped := s.hasStream
        processorStopped := true
        durationTimerOn := false
        levelTimerOn := false
        isRecording := false
        isPaused := false
        duration := 0
        audioLevel := 0 },
      [RecAction.recorderStop], true)
  else (s, [], false)

/-- The `onstop` event of the recorder: the pending `stopRecording` promise
resolves with `new Blob(chunks)` — the concatenation, in arrival order,
of the payloads the collector retained. -/
def resolvedBlob (s : RecState) : String :=
  s.collected.foldl (fun a c => a ++ c.data) ""

/-- Concatenation of a list of chunk payloads (what a blob over ALL the
chunks of the recording would contain). -/
def blobOf (cs : List Chunk) : String :=
  cs.foldl (fun a c => a ++ c.data) ""

/-!
Concrete scenarios used by individual theorems below.
-/

/-- A session in the Listening state: `start()` succeeded and the engine
delivered `onstart`. -/
def startedState : TSState :=
  (runTrace (initTS true) [Event.evStart true .ok, Event.evOnstart]).1

/-- Scenario A of the spec: `start`, engine start, then one finalized
recognition update per fragment with no interim text in between. -/
def scenarioA (frags : List String) : List Event :=
  Event.evStart true .ok :: Event.evOnstart ::
    frags.map (fun f => Event.evOnresult [(f, true)])

/-- The engine-ended handler invoked twice in a row with no intervening
successful start. -/
def doubleEndTrace : List Event :=
  [Event.evStart true .ok, Event.evOnstart, Event.evOnend, Event.evOnend]

/-- A session whose engine just ended while it should keep listening: the
`onend` handler has scheduled restart timer 0. -/
def endedPendingState : TSState :=
  (runTrace (initTS true) [Event.evStart true .ok, Event.evOnstart, Event.evOnend]).1

/-- Three consecutive failed restart attempts: the engine ended (timer 0
scheduled) and timers 0, 1, 2 each fired with `recognition.start()`
throwing. -/
def ceilingState : TSState :=
  (runTrace (initTS true)
    [Event.evStart true .ok, Event.evOnstart, Event.evOnend,
     Event.evTimer 0 (.failed "x"), Event.evTimer 1 (.failed "x"),
     Event.evTimer 2 (.failed "x")]).1

/-- Session one is started, paused and stopped; session two is then
started and its engine start succeeds. -/
def secondSessionState : TSState :=
  (runTrace (initTS true)
    [Event.evStart true .ok, Event.evOnstart, Event.evPause, Event.evOnend,
     Event.evStop, Event.evStart true .ok, Event.evOnstart]).1

/-- A trace of one session (no `start()` call) used to instantiate the
monotonicity theorem: results arrive, the engine dies, a scheduled
restart revives it, more results arrive, and the session stops. -/
def c3SampleTrace : List Event :=
  [Event.evOnresult [("a", true)], Event.evOnend, Event.evTimer 0 .ok,
   Event.evOnstart, Event.evOnresult [("b", true), ("c", false)],
   Event.evStop]

/-- A full recording run: two chunks are emitted while recording,
`stopRecording` is called, and the recorder flushes one last chunk. -/
def recorderRun : RecState :=
  let s1 := (recStart initRec).1
  let s2 := (emitChunk true ⟨"a"⟩ s1).1
  let s3 := (emitChunk true ⟨"b"⟩ s2).1
  let s4 := (stopRec s3).1
  (emitChunk true ⟨"c"⟩ s4).1

/-!
Helper lemmas: the two `clearTimeout` wrappers only touch the timer
bookkeeping fields, and the restart machinery never touches the
accumulated text.
-/

@[simp]
theorem clearSilenceTimer_isListening (s : TSState) :
    (clearSilenceTimer s).isListening = s.isListening := by
  cases h : s.silenceTimer <;> simp [clearSilenceTimer, h]

@[simp]
theorem clearSilenceTimer_isAborting (s : TSState) :
    (clearSilenceTimer s).isAborting = s.isAborting := by
  cases h : s.silenceTimer <;> simp [clearSilenceTimer, h]

@[simp]
theorem clearSilenceTimer_shouldBeListening (s : TSState) :
    (clearSilenceTimer s).shouldBeListening = s.shouldBeListening := by
  cases h : s.silenceTimer <;> simp [clearSilenceTimer, h]

@[simp]
theorem clearSilenceTimer_isPausedState (s : TSState) :
    (clearSilenceTimer s).isPausedState = s.isPausedState := by
  cases h : s.silenceTimer <;> simp [clearSilenceTimer, h]

@[simp]
theorem clearSilenceTimer_transcript (s : TSState) :
    (clearSilenceTimer s).transcript = s.transcript := by
  cases h : s.silenceTimer <;> simp [clearSilenceTimer, h]

@[simp]
theorem clearSilenceTimer_interimTranscript (s : TSState) :
    (clearSilenceTimer s).interimTranscript = s.interimTranscript := by
  cases h : s.silenceTimer <;> simp [clearSilenceTimer, h]

@[simp]
theorem clearSilenceTimer_restartTimer (s : TSState) :
    (clearSilenceTimer s).restartTimer = s.restartTimer := by
  cases h : s.silenceTimer <;> simp [clearSilenceTimer, h]

@[simp]
theorem clearSilenceTimer_restartAttempts (s : TSState) :
    (clearSilenceTimer s).restartAttempts = s.restartAttempts := by
  cases h : s.silenceTimer <;> simp [clearSilenceTimer, h]

@[simp]
theorem clearSilenceTimer_hasRecognition (s : TSState) :
    (clearSilenceTimer s).hasRecognition = s.hasRecognition := by
  cases h : s.silenceTimer <;> simp [clearSilenceTimer, h]

@[simp]
theorem clearSilenceTimer_hasResultHandler (s : TSState) :
    (clearSilenceTimer s).hasResultHandler = s.hasResultHandler := by
  cases h : s.silenceTimer <;> simp [clearSilenceTimer, h]

@[simp]
theorem clearSilenceTimer_onResultCallback (s : TSState) :
    (clearSilenceTimer s).onResultCallback = s.onResultCallback := by
  cases h : s.silenceTimer <;> simp [clearSilenceTimer, h]

@[simp]
theorem clearSilenceTimer_onErrorCallback (s : TSState) :
    (clearSilenceTimer s).onErrorCallback = s.onErrorCallback := by
  cases h : s.silenceTimer <;> simp [clearSilenceTimer, h]

@[simp]
theorem clearRestartTimer_isListening (s : TSState) :
    (clearRestartTimer s).isListening = s.isListening := by
  cases h : s.restartTimer <;> simp [clearRestartTimer, h]

@[simp]
theorem clearRestartTimer_isAborting (s : TSState) :
    (clearRestartTimer s).isAborting = s.isAborting := by
  cases h : s.restartTimer <;> simp [clearRestartTimer, h]

@[simp]
theorem clearRestartTimer_shouldBeListening (s : TSState) :
    (clearRestartTimer s).shouldBeListening = s.shouldBeListening := by
  cases h : s.restartTimer <;> simp [clearRestartTimer, h]

@[simp]
theorem clearRestartTimer_isPausedState (s : TSState) :
    (clearRestartTimer s).isPausedState = s.isPausedState := by
  cases h : s.restartTimer <;> simp [clearRestartTimer, h]

@[simp]
theorem clearRestartTimer_transcript (s : TSState) :
    (clearRestartTimer s).transcript = s.transcript := by
  cases h : s.restartTimer <;> simp [clearRestartTimer, h]

@[simp]
theorem clearRestartTimer_interimTranscript (s : TSState) :
    (clearRestartTimer s).interimTranscript = s.interimTranscript := by
  cases h : s.restartTimer <;> simp [clearRestartTimer, h]

@[simp]
theorem clearRestartTimer_restartAttempts (s : TSState) :
    (clearRestartTimer s).restartAttempts = s.restartAttempts := by
  cases h : s.restartTimer <;> simp [clearRestartTimer, h]

@[simp]
theorem clearRestartTimer_hasRecognition (s : TSState) :
    (clearRestartTimer s).hasRecognition = s.hasRecognition := by
  cases h : s.restartTimer <;> simp [clearRestartTimer, h]

@[simp]
theorem clearRestartTimer_hasResultHandler (s : TSState) :
    (clearRestartTimer s).hasResultHandler = s.hasResultHandler := by
  cases h : s.restartTimer <;> simp [clearRestartTimer, h]

@[simp]
theorem clearRestartTimer_onResultCallback (s : TSState) :
    (clearRestartTimer s).onResultCallback = s.onResultCallback := by
  cases h : s.restartTimer <;> simp [clearRestartTimer, h]

@[simp]
theorem clearRestartTimer_onErrorCallback (s : TSState) :
    (clearRestartTimer s).onErrorCallback = s.onErrorCallback := by
  cases h : s.restartTimer <;> simp [clearRestartTimer, h]

/-- The text all final fragments of a result slice contribute: each final
fragment followed by the single space the handler appends. -/
def finalsText : List (String × Bool) → String
  | [] => ""
  | (t, true) :: rs => t ++ " " ++ finalsText rs
  | (_, false) :: rs => finalsText rs

/-- Concatenation of the non-final fragments of a result slice. -/
def interimText : List (String × Bool) → String
  | [] => ""
  | (_, true) :: rs => interimText rs
  | (t, false) :: rs => t ++ interimText rs

/-- The handler loop appends exactly `finalsText` to the transcript
accumulator and `interimText` to the interim accumulator. -/
theorem processResults_eq (rs : List (String × Bool)) (tr itr : String) :
    processResults rs tr itr = (tr ++ finalsText rs, itr ++ interimText rs) := by
  induction rs generalizing tr itr with
  | nil => simp [processResults, finalsText, interimText]
  | cons p rs ih =>
    obtain ⟨t, f⟩ := p
    cases f <;>
      simp [processResults, finalsText, interimText, ih, String.append_assoc]

theorem attemptRestart_transcript (o : StartOutcome) (s : TSState) :
    (attemptRestart o s).1.transcript = s.transcript := by
  unfold attemptRestart
  split
  · rfl
  · split
    · simp [scheduleRestart]
    · cases o <;> simp [scheduleRestart]

theorem attemptRestart_no_resultCb (o : StartOutcome) (s : TSState) :
    emittedFinals (attemptRestart o s).2 = [] := by
  unfold attemptRestart
  split
  · rfl
  · split
    · rfl
    · cases o <;> simp [emittedFinals]

theorem fireTimer_transcript (id : Nat) (o : StartOutcome) (s : TSState) :
    (fireTimer id o s).1.transcript = s.transcript := by
  rcases hf : s.pendingTimers.find? (fun t => t.1 = id) with _ | ⟨i, k, d⟩ <;>
    simp only [fireTimer, hf]
  cases k
  · exact attemptRestart_transcript o _
  · dsimp only
    split
    · exact attemptRestart_transcript o _
    · rfl

theorem fireTimer_no_resultCb (id : Nat) (o : StartOutcome) (s : TSState) :
    emittedFinals (fireTimer id o s).2 = [] := by
  rcases hf : s.pendingTimers.find? (fun t => t.1 = id) with _ | ⟨i, k, d⟩ <;>
    simp only [fireTimer, hf]
  · rfl
  · cases k
    · exact attemptRestart_no_resultCb o _
    · dsimp only
      split
      · exact attemptRestart_no_resultCb o _
      · rfl

theorem stop_transcript (s : TSState) : (stop s).state.transcript = s.transcript := by
  simp [stop]

theorem stop_ret_eq (s : TSState) : (stop s).ret = s.transcript := by
  simp [stop]

theorem abort_transcript (ok : Bool) (s : TSState) :
    (abort ok s).1.transcript = s.transcript := by
  cases ok <;>
    · unfold abort
      dsimp only
      split <;> simp

theorem pause_transcript (s : TSState) : (pause s).1.transcript = s.transcript := by
  unfold pause
  dsimp only
  simp

theorem resume_transcript (s : TSState) : (resume s).1.transcript = s.transcript := by
  unfold resume
  dsimp only
  split <;> simp

theorem handleOnstart_transcript (s : TSState) :
    (handleOnstart s).transcript = s.transcript := by
  simp [handleOnstart]

theorem handleOnend_transcript (s : TSState) :
    (handleOnend s).transcript = s.transcript := by
  unfold handleOnend
  dsimp only
  split <;> simp [scheduleRestart]

theorem handleOnerror_transcript (e : RecError) (s : TSState) :
    (handleOnerror e s).1.transcript = s.transcript := by
  cases e <;> simp [handleOnerror]

theorem handleOnresult_transcript (rs : List (String × Bool)) (s : TSState) :
    (handleOnresult rs s).1.transcript =
      if s.hasResultHandler then s.transcript ++ finalsText rs
      else s.transcript := by
  cases h : s.hasResultHandler <;>
    simp [handleOnresult, h, processResults_eq]

theorem handleOnresult_interim (rs : List (String × Bool)) (s : TSState) :
    (handleOnresult rs s).1.interimTranscript =
      if s.hasResultHandler then interimText rs
      else s.interimTranscript := by
  cases h : s.hasResultHandler <;>
    simp [handleOnresult, h, processResults_eq, String.empty_append]

theorem handleOnresult_finals (rs : List (String × Bool)) (s : TSState) :
    emittedFinals (handleOnresult rs s).2 =
      (if s.hasResultHandler && s.onResultCallback
       then [(handleOnresult rs s).1.transcript] else []) := by
  cases h1 : s.hasResultHandler <;> cases h2 : s.onResultCallback <;>
    simp [handleOnresult, h1, h2, emittedFinals]

theorem start_no_resultCb (hb : Bool) (o : StartOutcome) (s : TSState) :
    emittedFinals (start hb o s).2 = [] := by
  unfold start
  split
  · cases hb <;> simp [emittedFinals]
  · split
    · rfl
    · cases o <;> cases hb <;> simp [emittedFinals]

theorem handleOnerror_no_resultCb (e : RecError) (s : TSState) :
    emittedFinals (handleOnerror e s).2 = [] := by
  cases e <;> cases h : s.onErrorCallback <;>
    simp [handleOnerror, h, emittedFinals]

/-- A single string extends another when it is that string followed by a
suffix. -/
theorem ext_of_eq {a b : String} (h : a = b) : ∃ t, a = b ++ t :=
  ⟨"", by rw [h, String.append_empty]⟩

/-- Every event other than a `start()` call only ever extends the
committed transcript: nothing removes, reorders, or resets it. -/
theorem step_transcript_extends (s : TSState) (e : Event)
    (h : e.isStartCall = false) :
    ∃ t, (step s e).1.transcript = s.transcript ++ t := by
  cases e with
  | evStart hb o => simp [Event.isStartCall] at h
  | evStop => exact ext_of_eq (stop_transcript s)
  | evAbort ok => exact ext_of_eq (abort_transcript ok s)
  | evPause => exact ext_of_eq (pause_transcript s)
  | evResume => exact ext_of_eq (resume_transcript s)
  | evOnstart => exact ext_of_eq (handleOnstart_transcript s)
  | evOnend => exact ext_of_eq (handleOnend_transcript s)
  | evOnerror er => exact ext_of_eq (handleOnerror_transcript er s)
  | evOnresult rs =>
      cases hh : s.hasResultHandler with
      | false =>
          refine ext_of_eq ?_
          simp [step, handleOnresult_transcript, hh]
      | true =>
          exact ⟨finalsText rs, by simp [step, handleOnresult_transcript, hh]⟩
  | evTimer id o => exact ext_of_eq (fireTimer_transcript id o s)

/-- A single event emits either no final text or exactly the transcript
it leaves behind. -/
theorem step_finals (s : TSState) (e : Event) :
    emittedFinals (step s e).2 = [] ∨
    emittedFinals (step s e).2 = [(step s e).1.transcript] := by
  cases e with
  | evStart hb o => exact Or.inl (start_no_resultCb hb o s)
  | evStop =>
      left
      show emittedFinals (stop s).actions = []
      unfold stop
      dsimp only
      split <;> rfl
  | evAbort ok =>
      left
      show emittedFinals (abort ok s).2 = []
      unfold abort
      dsimp only
      split <;> rfl
  | evPause =>
      left
      show emittedFinals (pause s).2 = []
      unfold pause
      dsimp only
      split <;> rfl
  | evResume =>
      left
      show emittedFinals (resume s).2 = []
      unfold resume
      dsimp only
      split <;> rfl
  | evOnstart => exact Or.inl rfl
  | evOnend => exact Or.inl rfl
  | evOnerror er => exact Or.inl (handleOnerror_no_resultCb er s)
  | evOnresult rs =>
      by_cases hc : (s.hasResultHandler && s.onResultCallback) = true
      · refine Or.inr ?_
        have h := handleOnresult_finals rs s
        rw [if_pos hc] at h
        exact h
      · refine Or.inl ?_
        have h := handleOnresult_finals rs s
        rw [if_neg hc] at h
        exact h
  | evTimer id o => exact Or.inl (fireTimer_no_resultCb id o s)

theorem runTrace_cons (s : TSState) (e : Event) (es : List Event) :
    runTrace s (e :: es) =
      ((runTrace (step s e).1 es).1,
        (step s e).2 ++ (runTrace (step s e).1 es).2) := rfl

theorem emittedFinals_append (a b : List Action) :
    emittedFinals (a ++ b) = emittedFinals a ++ emittedFinals b := by
  simp [emittedFinals]

/-- Along any trace of events that contains no `start()` call, the
transcript only ever grows, every final text handed to the result
callback extends the starting transcript, and the emitted final texts are
pairwise prefix-ordered in emission order. -/
theorem runTrace_finals_mono (s : TSState) (es : List Event)
    (h : ∀ e ∈ es, e.isStartCall = false) :
    (∃ t, (runTrace s es).1.transcript = s.transcript ++ t) ∧
    (∀ f ∈ emittedFinals (runTrace s es).2, ∃ t, f = s.transcript ++ t) ∧
    List.Pairwise (fun a b => a.length ≤ b.length ∧ ∃ t, b = a ++ t)
      (emittedFinals (runTrace s es).2) := by
  induction es generalizing s with
  | nil =>
      refine ⟨⟨"", (String.append_empty _).symm⟩, ?_, ?_⟩
      · intro f hf
        simp [runTrace, emittedFinals] at hf
      · simp [runTrace, emittedFinals]
  | cons e es ih =>
      have he : e.isStartCall = false := h e (List.mem_cons_self e es)
      have hes : ∀ x ∈ es, x.isStartCall = false :=
        fun x hx => h x (List.mem_cons_of_mem e hx)
      obtain ⟨t1, ht1⟩ := step_transcript_extends s e he
      obtain ⟨⟨T, hT⟩, hAll, hPw⟩ := ih (step s e).1 hes
      have hfirst : ∀ f ∈ emittedFinals (step s e).2,
          f = (step s e).1.transcript := by
        intro f hf
        rcases step_finals s e with hc | hc <;> rw [hc] at hf
        · simp at hf
        · simpa using hf
      rw [runTrace_cons]
      dsimp only
      rw [emittedFinals_append]
      refine ⟨⟨t1 ++ T, ?_⟩, ?_, ?_⟩
      · rw [hT, ht1, String.append_assoc]
      · intro f hf
        rcases List.mem_append.1 hf with hf1 | hf2
        · exact ⟨t1, by rw [hfirst f hf1, ht1]⟩
        · obtain ⟨t, hft⟩ := hAll f hf2
          exact ⟨t1 ++ t, by rw [hft, ht1, String.append_assoc]⟩
      · refine List.pairwise_append.2 ⟨?_, hPw, ?_⟩
        · rcases step_finals s e with hc | hc <;> rw [hc] <;> simp
        · intro a ha b hb
          obtain ⟨t, hbt⟩ := hAll b hb
          rw [hfirst a ha, hbt]
          refine ⟨?_, ⟨t, rfl⟩⟩
          rw [String.length_append]
          exact Nat.le_add_right _ _

/-!
The claims, settled against the model above.
-/

/-- C1, counterexample: after start and three finalized updates carrying
the fragments "Hello ", "world " and "today " (each with its trailing
space, as the claim states), stop() does NOT return "Hello world today ":
the handler appends a further space after every finalized fragment, so it
returns "Hello  world  today  ". -/
theorem c1_counterexample :
    (stop (runTrace (initTS true)
      (scenarioA ["Hello ", "world ", "today "])).1).ret ≠
      "Hello world today " := by decide

/-- C1, amended claim: after start() and exactly three finalized
recognition updates carrying the fragments "Hello", "world" and "today"
with no interim text in between, stop() returns "Hello world today ";
in general every incoming recognition update appends each newly
finalized fragment followed by a single space, in order, to the
committed text, and replaces the pending text with the concatenation of
the not-yet-final fragments of the update. -/
theorem c1_amended :
    (stop (runTrace (initTS true)
      (scenarioA ["Hello", "world", "today"])).1).ret = "Hello world today " ∧
    ∀ (s : TSState) (rs : List (String × Bool)), s.hasResultHandler = true →
      (handleOnresult rs s).1.transcript = s.transcript ++ finalsText rs ∧
      (handleOnresult rs s).1.interimTranscript = interimText rs := by
  refine ⟨by decide, ?_⟩
  intro s rs hh
  constructor
  · rw [handleOnresult_transcript, if_pos hh]
  · rw [handleOnresult_interim, if_pos hh]

/-- Witness for the amended C1 theorem at a concrete state and update. -/
theorem c1_amended_witness :
    startedState.hasResultHandler = true ∧
    ((handleOnresult [("hi", true), ("yo", false)] startedState).1.transcript =
        startedState.transcript ++ finalsText [("hi", true), ("yo", false)] ∧
      (handleOnresult [("hi", true), ("yo", false)] startedState).1.interimTranscript =
        interimText [("hi", true), ("yo", false)]) :=
  ⟨by decide, c1_amended.2 startedState [("hi", true), ("yo", false)] (by decide)⟩

/-- C2, counterexample: calling stop() on a freshly constructed manager,
where no session is active, reports no error to the caller at all; the
claim that it fails with a distinct no-active-session error is false. -/
theorem c2_counterexample :
    ¬ 1 ≤ errorCount (stop (initTS true)).actions := by decide

/-- C2, amended claim: stop() while the engine is not listening is
silently accepted rather than reported as an error: it performs no
engine call and invokes no callback, clears the intent flag, and returns
the transcript accumulated so far. -/
theorem c2_amended (s : TSState) (h : s.isListening = false) :
    (stop s).actions = [] ∧ (stop s).ret = s.transcript ∧
    (stop s).state.shouldBeListening = false := by
  simp [stop, h]

/-- Witness for the amended C2 theorem on a fresh manager. -/
theorem c2_amended_witness :
    (initTS true).isListening = false ∧
    ((stop (initTS true)).actions = [] ∧
      (stop (initTS true)).ret = (initTS true).transcript ∧
      (stop (initTS true)).state.shouldBeListening = false) :=
  ⟨rfl, c2_amended (initTS true) rfl⟩

/-- C3: for every sequence of recognition updates and engine events
within one session (a trace with no start() call), including across
auto-restarts, the finalText values passed to the result callback are
pairwise prefix-ordered with non-decreasing length, and the committed
transcript is only ever extended — never removed, reordered, or reset
by a restart. -/
theorem c3_final_text_monotone (s : TSState) (es : List Event)
    (h : ∀ e ∈ es, e.isStartCall = false) :
    List.Pairwise (fun a b => a.length ≤ b.length ∧ ∃ t, b = a ++ t)
      (emittedFinals (runTrace s es).2) ∧
    ∃ t, (runTrace s es).1.transcript = s.transcript ++ t :=
  ⟨(runTrace_finals_mono s es h).2.2, (runTrace_finals_mono s es h).1⟩

/-- Witness for the C3 theorem on a concrete in-session trace spanning an
auto-restart. -/
theorem c3_witness :
    (∀ e ∈ c3SampleTrace, e.isStartCall = false) ∧
    (List.Pairwise (fun a b => a.length ≤ b.length ∧ ∃ t, b = a ++ t)
        (emittedFinals (runTrace startedState c3SampleTrace).2) ∧
      ∃ t, (runTrace startedState c3SampleTrace).1.transcript =
        startedState.transcript ++ t) :=
  ⟨by decide, c3_final_text_monotone startedState c3SampleTrace (by decide)⟩

/-- C4, counterexample: invoking the engine-ended handler twice in a row
with no intervening successful start leaves TWO restarts concurrently
pending, so the claim that this never happens is false. -/
theorem c4_counterexample :
    ¬ pendingRestartCount (runTrace (initTS true) doubleEndTrace).1 ≤ 1 := by
  decide

/-- C4, amended claim: when the engine ends while the session should
still be listening (not aborting, not paused), that event schedules
exactly one additional restart; but the handler does not cancel a
previously scheduled restart, so invoking it twice in a row without an
intervening successful start leaves two restarts concurrently pending;
a scheduled restart that executes while the engine is already listening
is a no-op. -/
theorem c4_amended :
    (∀ s : TSState, s.shouldBeListening = true → s.isAborting = false →
        s.isPausedState = false →
        pendingRestartCount (handleOnend s) = pendingRestartCount s + 1) ∧
    pendingRestartCount (runTrace (initTS true) doubleEndTrace).1 = 2 ∧
    (∀ (o : StartOutcome) (s : TSState), s.isListening = true →
        attemptRestart o s = (s, [])) := by
  refine ⟨?_, by decide, ?_⟩
  · intro s h1 h2 h3
    simp [handleOnend, scheduleRestart, pendingRestartCount, h1, h2, h3]
  · intro o s h
    simp [attemptRestart, h]

/-- Witness for the amended C4 theorem at concrete states. -/
theorem c4_amended_witness :
    pendingRestartCount (handleOnend endedPendingState) =
      pendingRestartCount endedPendingState + 1 ∧
    attemptRestart .ok startedState = (startedState, []) :=
  ⟨c4_amended.1 endedPendingState (by decide) (by decide) (by decide),
    c4_amended.2.2 .ok startedState (by decide)⟩

/-- C5, code bug: pause() does not cancel the restart already scheduled
by the engine-ended handler (it clears only the silence timer), and
attemptRestart never consults the pause flag, so the stale scheduled
restart fires after pause() and starts the engine while the session is
paused. -/
theorem c5_stale_restart_survives_pause :
    pendingRestartCount endedPendingState = 1 ∧
    pendingRestartCount (pause endedPendingState).1 = 1 ∧
    (fireTimer 0 .ok (pause endedPendingState).1).2 = [Action.engineStart] ∧
    (fireTimer 0 .ok (pause endedPendingState).1).1.isPausedState = true := by
  decide

/-- C6: fatal permission/device errors (audio-capture, not-allowed)
invoke the error callback exactly once per error event when a callback
is registered and never more than once, and immediately clear the
intent flag so that neither a subsequent engine-ended event nor
attemptRestart performs any restart; transient errors (no-speech,
network) change nothing and never reach the error callback. -/
theorem c6_error_classification (s : TSState) :
    (handleOnerror .audioCapture s).1.shouldBeListening = false ∧
    (handleOnerror .audioCapture s).2 =
      (if s.onErrorCallback then
        [Action.errorCb "Microphone access denied or unavailable"] else []) ∧
    errorCount (handleOnerror .audioCapture s).2 ≤ 1 ∧
    (handleOnerror .notAllowed s).1.shouldBeListening = false ∧
    (handleOnerror .notAllowed s).2 =
      (if s.onErrorCallback then
        [Action.errorCb "Microphone permission denied"] else []) ∧
    errorCount (handleOnerror .notAllowed s).2 ≤ 1 ∧
    handleOnerror .noSpeech s = (s, []) ∧
    handleOnerror .network s = (s, []) ∧
    (∀ o : StartOutcome,
      attemptRestart o (handleOnerror .audioCapture s).1 =
        ((handleOnerror .audioCapture s).1, [])) ∧
    (handleOnend (handleOnerror .audioCapture s).1).pendingTimers =
      (handleOnerror .audioCapture s).1.pendingTimers := by
  cases hc : s.onErrorCallback <;>
    simp [handleOnerror, attemptRestart, handleOnend, errorCount, hc]

/-- C7: after exactly 3 consecutive failed restart attempts the next
invocation performs no engine start and instead schedules a 2000ms
cooldown timer; when the cooldown fires with the intent to listen still
set, the restart is attempted again; and every successful Listening
entry (the onstart handler) resets restartAttempts to 0. -/
theorem c7_restart_ceiling :
    ceilingState.restartAttempts = 3 ∧
    (fireTimer 3 .ok ceilingState).2 = [] ∧
    (fireTimer 3 .ok ceilingState).1.restartAttempts = 0 ∧
    (fireTimer 3 .ok ceilingState).1.pendingTimers =
      [(4, TimerKind.cooldown, 2000)] ∧
    (fireTimer 4 .ok (fireTimer 3 .ok ceilingState).1).2 =
      [Action.engineStart] ∧
    (∀ s : TSState, (handleOnstart s).restartAttempts = 0 ∧
      (handleOnstart s).isListening = true) := by
  refine ⟨by decide, by decide, by decide, by decide, by decide, ?_⟩
  intro s
  constructor <;> simp [handleOnstart]

/-- C8, code bug: stopRecording swaps the data handler for a fresh
collector, so the resolved audio contains only the chunks the recorder
emitted after stop was requested (here "c"), not the concatenation of
all chunks emitted over the entire recording ("abc"); the stream tracks
are stopped, the processor is disposed, and both timers are cleared. -/
theorem c8_stop_loses_early_chunks :
    resolvedBlob recorderRun = "c" ∧
    blobOf [⟨"a"⟩, ⟨"b"⟩, ⟨"c"⟩] = "abc" ∧
    resolvedBlob recorderRun ≠ blobOf [⟨"a"⟩, ⟨"b"⟩, ⟨"c"⟩] ∧
    recorderRun.streamStopped = true ∧
    recorderRun.processorStopped = true ∧
    recorderRun.durationTimerOn = false ∧
    recorderRun.levelTimerOn = false := by
  decide

/-- C9, code bug: the invariant that Listening implies intent-to-listen
and no pause intent is violated on a reachable state: after pause, stop,
and a second start, the engine enters Listening while isPausedState is
still true (neither stop() nor start() clears it), and the next
engine-ended event consequently schedules no restart for the new
session. -/
theorem c9_listening_invariant_violated :
    secondSessionState.isListening = true ∧
    secondSessionState.shouldBeListening = true ∧
    secondSessionState.isPausedState = true ∧
    (handleOnend secondSessionState).pendingTimers = [] := by
  decide

/-- C10: every start() on a supported, inactive manager resets both text
accumulators to the empty string and then attempts the engine start, so
no text from a previous session persists into the new one. -/
theorem c10_start_resets_text (s : TSState) (hb : Bool) (o : StartOutcome)
    (h1 : s.hasRecognition = true) (h2 : s.shouldBeListening = false) :
    (start hb o s).1.transcript = "" ∧
    (start hb o s).1.interimTranscript = "" ∧
    Action.engineStart ∈ (start hb o s).2 := by
  cases o <;> simp [start, h1, h2]

/-- Witness for the C10 theorem on a fresh supported manager. -/
theorem c10_witness :
    (initTS true).hasRecognition = true ∧
    (initTS true).shouldBeListening = false ∧
    ((start true .ok (initTS true)).1.transcript = "" ∧
      (start true .ok (initTS true)).1.interimTranscript = "" ∧
      Action.engineStart ∈ (start true .ok (initTS true)).2) :=
  ⟨rfl, rfl, c10_start_resets_text (initTS true) true .ok rfl rfl⟩

end Aiclasss
